import Mathlib

/-!
Verification of the Postman-collection generator (`script.py`).

The script is a one-shot generator: every value it emits is built from
literals in the source.  We embed the data model (collection, folders,
request descriptors, environments), the JSON serialization the script
performs via `json.dumps(..., indent=2)`, and the write loop of `main`,
and prove the specified properties about them.
-/

namespace MotionKit

/-- JSON values as Python's `json` module distinguishes them.  Numbers keep
Python's int/float distinction: `jint` is an int literal, `jdec m e` is the
float whose exact decimal value is `m / 10^e`, held normalized (no trailing
zero fraction digits), which matches float equality for the finite decimal
literals appearing in the source. -/
inductive Json where
  | jnull : Json
  | jbool : Bool → Json
  | jint : Int → Json
  | jdec : Int → Nat → Json
  | jstr : String → Json
  | jarr : List Json → Json
  | jobj : List (String × Json) → Json
deriving Repr

/-- Lower-case hexadecimal digit, used for `\u00xx` escapes. -/
def hexDigit (n : Nat) : Char :=
  if n < 10 then Char.ofNat (48 + n) else Char.ofNat (87 + n)

/-- Escape one character the way Python's `json` encoder does (with
`ensure_ascii=False`; all strings the script feeds to the default
`ensure_ascii=True` body dumps are pure ASCII, so the two agree there). -/
def escChar (c : Char) : List Char :=
  if c = '"' then ['\\', '"']
  else if c = '\\' then ['\\', '\\']
  else if c = '\n' then ['\\', 'n']
  else if c = '\t' then ['\\', 't']
  else if c = '\r' then ['\\', 'r']
  else if c = Char.ofNat 8 then ['\\', 'b']
  else if c = Char.ofNat 12 then ['\\', 'f']
  else if c.toNat < 32 then
    ['\\', 'u', '0', '0', hexDigit (c.toNat / 16), hexDigit (c.toNat % 16)]
  else [c]

/-- Serialize a JSON string literal, quotes included. -/
def dumpStr (s : String) : List Char :=
  '"' :: (s.toList.flatMap escChar) ++ ['"']

/-- Decimal digits of `n` (most significant first), fuel-bounded so the
recursion is structural; `fuel ≥ n` always suffices. -/
def natDigits (fuel : Nat) (n : Nat) : List Char :=
  match fuel with
  | 0 => []
  | fuel + 1 =>
    if n = 0 then []
    else natDigits fuel (n / 10) ++ [Char.ofNat (48 + n % 10)]

/-- Render a natural number in decimal. -/
def natRepr (n : Nat) : List Char :=
  if n = 0 then ['0'] else natDigits (n + 1) n

/-- Render an integer in decimal, as Python's `repr` of an int. -/
def intRepr (n : Int) : List Char :=
  if n < 0 then '-' :: natRepr n.natAbs else natRepr n.natAbs

/-- Render the float `m / 10^e` (normalized: `e = 0` or `10 ∤ m`) the way
Python's `repr` renders a float whose value is exactly that short decimal:
the minimal decimal expansion, with a trailing `.0` for integral floats. -/
def decRepr (m : Int) (e : Nat) : List Char :=
  let sign : List Char := if m < 0 then ['-'] else []
  let digits := natRepr m.natAbs
  if e = 0 then sign ++ digits ++ ['.', '0']
  else
    let digits := if digits.length ≤ e then
      List.replicate (e + 1 - digits.length) '0' ++ digits
    else digits
    sign ++ digits.take (digits.length - e) ++ '.' :: digits.drop (digits.length - e)

/-- Spaces used to indent nesting depth `level` under `indent=2`. -/
def indentAt (level : Nat) : List Char :=
  List.replicate (2 * level) ' '

mutual

/-- Serialization of a JSON value exactly as `json.dumps(v, indent=2)`
renders it when the value sits at nesting depth `level`.  The recursion is
bounded by explicit fuel (one unit per serialized node) so that it stays
structural and kernel-reducible; every caller supplies ample fuel. -/
def dumpsV (fuel level : Nat) (v : Json) : List Char :=
  match fuel with
  | 0 => []
  | fuel + 1 =>
    match v with
    | Json.jnull => ['n', 'u', 'l', 'l']
    | Json.jbool true => ['t', 'r', 'u', 'e']
    | Json.jbool false => ['f', 'a', 'l', 's', 'e']
    | Json.jint n => intRepr n
    | Json.jdec m e => decRepr m e
    | Json.jstr s => dumpStr s
    | Json.jarr [] => ['[', ']']
    | Json.jarr (x :: xs) =>
      '[' :: '\n' :: indentAt (level + 1) ++ dumpsV fuel (level + 1) x ++
        dumpsElems fuel (level + 1) xs ++ '\n' :: indentAt level ++ [']']
    | Json.jobj [] => ['{', '}']
    | Json.jobj (f :: fs) =>
      '{' :: '\n' :: indentAt (level + 1) ++ dumpStr f.1 ++ ':' :: ' ' ::
        dumpsV fuel (level + 1) f.2 ++ dumpsFields fuel (level + 1) fs ++
        '\n' :: indentAt level ++ ['}']

/-- Remaining array elements, each preceded by `",\n" ++ indent`. -/
def dumpsElems (fuel : Nat) (level : Nat) (xs : List Json) : List Char :=
  match fuel with
  | 0 => []
  | fuel + 1 =>
    match xs with
    | [] => []
    | x :: xs =>
      ',' :: '\n' :: indentAt level ++ dumpsV fuel level x ++
        dumpsElems fuel level xs

/-- Remaining object members, each preceded by `",\n" ++ indent`. -/
def dumpsFields (fuel : Nat) (level : Nat) (fs : List (String × Json)) :
    List Char :=
  match fuel with
  | 0 => []
  | fuel + 1 =>
    match fs with
    | [] => []
    | f :: fs =>
      ',' :: '\n' :: indentAt level ++ dumpStr f.1 ++ ':' :: ' ' ::
        dumpsV fuel level f.2 ++ dumpsFields fuel level fs

end

/-- Embedding of `json.dumps(v, indent=2)` as a `String`.  The fuel bound
far exceeds the node count of every document the generator builds. -/
def pyDumps (v : Json) : String :=
  String.mk (dumpsV 100000 0 v)

/-! JSON parsing, modelling `json.loads`: used to state that embedded body
payloads are well-formed and round-trip to the structures they came from. -/

/-- JSON whitespace. -/
def isWs (c : Char) : Bool :=
  c = ' ' || c = '\n' || c = '\t' || c = '\r'

/-- Drop leading whitespace. -/
def skipWs : List Char → List Char
  | [] => []
  | c :: cs => if isWs c then skipWs cs else c :: cs

/-- Value of a hexadecimal digit, if it is one. -/
def hexVal (c : Char) : Option Nat :=
  if 48 ≤ c.toNat ∧ c.toNat ≤ 57 then some (c.toNat - 48)
  else if 97 ≤ c.toNat ∧ c.toNat ≤ 102 then some (c.toNat - 87)
  else if 65 ≤ c.toNat ∧ c.toNat ≤ 70 then some (c.toNat - 55)
  else none

/-- Parse the body of a JSON string literal after the opening quote,
returning the decoded characters and the input after the closing quote. -/
def pStr (acc : List Char) : List Char → Option (List Char × List Char)
  | [] => none
  | '"' :: rest => some (acc.reverse, rest)
  | '\\' :: 'u' :: h1 :: h2 :: h3 :: h4 :: rest =>
    match hexVal h1, hexVal h2, hexVal h3, hexVal h4 with
    | some a, some b, some c, some d =>
      pStr (Char.ofNat (((a * 16 + b) * 16 + c) * 16 + d) :: acc) rest
    | _, _, _, _ => none
  | '\\' :: e :: rest =>
    if e = '"' then pStr ('"' :: acc) rest
    else if e = '\\' then pStr ('\\' :: acc) rest
    else if e = '/' then pStr ('/' :: acc) rest
    else if e = 'n' then pStr ('\n' :: acc) rest
    else if e = 't' then pStr ('\t' :: acc) rest
    else if e = 'r' then pStr ('\r' :: acc) rest
    else if e = 'b' then pStr (Char.ofNat 8 :: acc) rest
    else if e = 'f' then pStr (Char.ofNat 12 :: acc) rest
    else none
  | c :: rest =>
    if c.toNat < 32 then none else pStr (c :: acc) rest

/-- Decimal digit test. -/
def isDigit (c : Char) : Bool :=
  48 ≤ c.toNat && c.toNat ≤ 57

/-- Split off a maximal run of decimal digits. -/
def takeDigits : List Char → List Char × List Char
  | [] => ([], [])
  | c :: cs =>
    if isDigit c then
      let (ds, rest) := takeDigits cs
      (c :: ds, rest)
    else ([], c :: cs)

/-- Numeric value of a digit run. -/
def digitsToNat (ds : List Char) : Nat :=
  ds.foldl (fun acc c => acc * 10 + (c.toNat - 48)) 0

/-- Drop trailing zeros of the fraction: `(m, e)` with value `m / 10^e`
becomes the normalized pair Python float equality identifies it with. -/
def normDec (m : Int) (e : Nat) : Int × Nat :=
  match e with
  | 0 => (m, 0)
  | e + 1 => if m % 10 = 0 then normDec (m / 10) e else (m, e + 1)

/-- Build the number token value: Python's `json` yields an int when the
token has no fraction and no exponent, and a float otherwise. -/
def mkNum (neg : Bool) (ip : Nat) (frac : Option (List Char))
    (ex : Option Int) : Json :=
  match frac, ex with
  | none, none => Json.jint (if neg then -(ip : Int) else (ip : Int))
  | _, _ =>
    let fd := frac.getD []
    let m : Int := (ip * 10 ^ fd.length + digitsToNat fd : Nat)
    let m := if neg then -m else m
    let e0 : Int := (fd.length : Int) - ex.getD 0
    let (m, e) := if e0 ≤ 0 then (m * 10 ^ (-e0).toNat, 0) else (m, e0.toNat)
    let (m, e) := normDec m e
    Json.jdec m e

/-- Parse a number token starting at a digit or minus sign. -/
def pNum (s : List Char) : Option (Json × List Char) :=
  let (neg, s1) := match s with
    | '-' :: rest => (true, rest)
    | _ => (false, s)
  match takeDigits s1 with
  | ([], _) => none
  | (ids, s2) =>
    let (frac, s3) : Option (List Char) × List Char := match s2 with
      | '.' :: s2a =>
        match takeDigits s2a with
        | ([], _) => (none, '.' :: s2a)
        | (fds, s2b) => (some fds, s2b)
      | _ => (none, s2)
    match frac, s3 with
    | none, '.' :: _ => none
    | _, _ =>
      let (ex, s4) : Option Int × List Char := match s3 with
        | 'e' :: s3a | 'E' :: s3a =>
          let (esign, s3b) : Bool × List Char := match s3a with
            | '+' :: r => (false, r)
            | '-' :: r => (true, r)
            | _ => (false, s3a)
          match takeDigits s3b with
          | ([], _) => (none, s3)
          | (eds, s3c) =>
            (some (if esign then -(digitsToNat eds : Int)
                   else (digitsToNat eds : Int)), s3c)
        | _ => (none, s3)
      match ex, s3, s4 with
      | none, 'e' :: _, _ | none, 'E' :: _, _ => none
      | _, _, _ => some (mkNum neg (digitsToNat ids) frac ex, s4)

mutual

/-- Parse one JSON value from the front of the input (whitespace already
skipped by the caller), fuel-bounded. -/
def pVal : Nat → List Char → Option (Json × List Char)
  | 0, _ => none
  | _ + 1, [] => none
  | fuel + 1, c :: cs =>
    if c = 'n' then
      match c :: cs with
      | 'n' :: 'u' :: 'l' :: 'l' :: rest => some (Json.jnull, rest)
      | _ => none
    else if c = 't' then
      match c :: cs with
      | 't' :: 'r' :: 'u' :: 'e' :: rest => some (Json.jbool true, rest)
      | _ => none
    else if c = 'f' then
      match c :: cs with
      | 'f' :: 'a' :: 'l' :: 's' :: 'e' :: rest => some (Json.jbool false, rest)
      | _ => none
    else if c = '"' then
      match pStr [] cs with
      | some (chars, rest) => some (Json.jstr (String.mk chars), rest)
      | none => none
    else if c = '[' then
      match skipWs cs with
      | ']' :: rest => some (Json.jarr [], rest)
      | s1 =>
        match pVal fuel s1 with
        | some (v, s2) => pElems fuel [v] s2
        | none => none
    else if c = '{' then
      match skipWs cs with
      | '}' :: rest => some (Json.jobj [], rest)
      | s1 => pMembers fuel [] ('{' :: s1) true
    else if c = '-' || isDigit c then pNum (c :: cs)
    else none

/-- Parse the remaining elements of an array, accumulator reversed. -/
def pElems : Nat → List Json → List Char → Option (Json × List Char)
  | 0, _, _ => none
  | fuel + 1, acc, s =>
    match skipWs s with
    | ']' :: rest => some (Json.jarr acc.reverse, rest)
    | ',' :: s1 =>
      match pVal fuel (skipWs s1) with
      | some (v, s2) => pElems fuel (v :: acc) s2
      | none => none
    | _ => none

/-- Parse the members of an object.  `first` is true when the leading `{`
(with no member yet consumed) is still at the head of the input. -/
def pMembers : Nat → List (String × Json) → List Char → Bool →
    Option (Json × List Char)
  | 0, _, _, _ => none
  | fuel + 1, acc, s, first =>
    let s0 := if first then match s with
      | '{' :: r => skipWs r
      | _ => s
      else skipWs s
    match first, s0 with
    | false, '}' :: rest => some (Json.jobj acc.reverse, rest)
    | false, ',' :: s1 => pPair fuel acc (skipWs s1)
    | true, s1 => pPair fuel acc s1
    | _, _ => none

/-- Parse one `"key": value` member then continue with the rest. -/
def pPair : Nat → List (String × Json) → List Char →
    Option (Json × List Char)
  | 0, _, _ => none
  | fuel + 1, acc, s =>
    match s with
    | '"' :: s1 =>
      match pStr [] s1 with
      | some (kchars, s2) =>
        match skipWs s2 with
        | ':' :: s3 =>
          match pVal fuel (skipWs s3) with
          | some (v, s4) =>
            pMembers fuel ((String.mk kchars, v) :: acc) s4 false
          | none => none
        | _ => none
      | none => none
    | _ => none

end

/-- Embedding of `json.loads`: parse a complete JSON document, requiring
the whole input to be consumed. -/
def jparse (s : String) : Option Json :=
  let cs := skipWs s.toList
  match pVal (4 * cs.length + 8) cs with
  | some (v, rest) => if skipWs rest = [] then some v else none
  | none => none

/-! Data model of the generated documents, mirroring the dict shapes the
script builds.  Optional dict keys (`auth`, `body`, `query`, `event`)
become `Option`/defaulted fields: `none`/`[]` is the key being absent. -/

/-- One entry of a `query` list: key, value, description. -/
structure QueryParam where
  key : String
  value : String
  description : String
deriving Repr, DecidableEq

/-- The `url` dict of a request: raw templated string, host segments, path
segments, and the optional `query` key. -/
structure UrlSpec where
  raw : String
  host : List String
  path : List String
  query : Option (List QueryParam) := none
deriving Repr, DecidableEq

/-- One entry of a `header` list. -/
structure Header where
  key : String
  value : String
deriving Repr, DecidableEq

/-- The `body` dict of a request: mode tag and raw payload string. -/
structure RequestBody where
  mode : String
  raw : String
deriving Repr, DecidableEq

/-- A per-request `auth` dict (only ever `\x7b"type": "noauth"\x7d` in the
script). -/
structure AuthOverride where
  type : String
deriving Repr, DecidableEq

/-- The `script` dict of an event: the list of statement strings. -/
structure ScriptSpec where
  exec : List String
deriving Repr, DecidableEq

/-- One entry of an `event` list: trigger phase and script. -/
structure EventSpec where
  listen : String
  script : ScriptSpec
deriving Repr, DecidableEq

/-- The `request` dict of an item. -/
structure RequestSpec where
  auth : Option AuthOverride := none
  method : String
  header : List Header
  body : Option RequestBody := none
  url : UrlSpec
  description : String
deriving Repr, DecidableEq

/-- One item of a folder: a request descriptor with its name, empty
response list, and optional events. -/
structure Item where
  name : String
  request : RequestSpec
  response : List Json := []
  event : List EventSpec := []
deriving Repr

/-- A named folder of request descriptors. -/
structure Folder where
  name : String
  item : List Item
deriving Repr

/-- One entry of the collection-level `variable` list (also the shape of a
bearer auth parameter). -/
structure Variable where
  key : String
  value : String
  type : String
deriving Repr, DecidableEq

/-- The collection-level `auth` dict. -/
structure AuthConfig where
  type : String
  bearer : List Variable
deriving Repr, DecidableEq

/-- The `info` dict of the collection. -/
structure CollInfo where
  _postman_id : String
  name : String
  description : String
  schema : String
deriving Repr, DecidableEq

/-- The root collection document. -/
structure Collection where
  info : CollInfo
  item : List Folder
  «variable» : List Variable
  auth : AuthConfig
deriving Repr

/-- One entry of an environment's `values` list. -/
structure EnvValue where
  key : String
  value : String
  enabled : Bool
deriving Repr, DecidableEq

/-- An environment document. -/
structure EnvironmentDoc where
  id : String
  name : String
  values : List EnvValue
deriving Repr, DecidableEq

/-- The dict returned by `create_test_environments`, keyed `development`
then `production`. -/
structure Environments where
  development : EnvironmentDoc
  production : EnvironmentDoc
deriving Repr, DecidableEq

/-- Embedding of `create_auth_folder`. -/
def create_auth_folder : Folder :=
  { name := "🔐 Authentication",
    item := [
      { name := "Register User",
        request := {
          method := "POST",
          header := [{ key := "Content-Type", value := "application/json" }],
          body := some { mode := "raw",
                         raw := pyDumps (Json.jobj [
              ("email", Json.jstr "user@example.com"),
              ("pass", Json.jstr "password123")]) },
          url := { raw := "\x7b\x7bbase_url\x7d\x7d/api/users/register",
                   host := ["\x7b\x7bbase_url\x7d\x7d"],
                   path := ["api", "users", "register"] },
          description := "Registra un nuevo usuario en el sistema" },
        response := [],
        event := [
          { listen := "test",
            script := { exec := [
              "if (pm.response.code === 200) \x7b",
              "    const response = pm.response.json();",
              "    pm.test(\x27User registered successfully\x27, function() \x7b",
              "        pm.expect(response).to.have.property(\x27id\x27);",
              "        pm.expect(response).to.have.property(\x27email\x27);",
              "    \x7d);",
              "\x7d"] } }] },
      { name := "Login User",
        request := {
          method := "POST",
          header := [{ key := "Content-Type", value := "application/json" }],
          body := some { mode := "raw",
                         raw := pyDumps (Json.jobj [
              ("email", Json.jstr "user@example.com"),
              ("pass", Json.jstr "password123")]) },
          url := { raw := "\x7b\x7bbase_url\x7d\x7d/api/users/login",
                   host := ["\x7b\x7bbase_url\x7d\x7d"],
                   path := ["api", "users", "login"] },
          description := "Autentica un usuario y obtiene el token JWT" },
        response := [],
        event := [
          { listen := "test",
            script := { exec := [
              "if (pm.response.code === 200) \x7b",
              "    const response = pm.response.json();",
              "    pm.test(\x27Login successful\x27, function() \x7b",
              "        pm.expect(response).to.have.property(\x27token\x27);",
              "    \x7d);",
              "    // Guardar token para otras requests",
              "    pm.collectionVariables.set(\x27auth_token\x27, response.token);",
              "\x7d"] } }] }
    ] }

/-- Embedding of `create_components_folder`. -/
def create_components_folder : Folder :=
  { name := "🧩 Components",
    item := [
      { name := "Get All Components",
        request := {
          method := "GET",
          header := [],
          url := { raw := "\x7b\x7bbase_url\x7d\x7d/api/components",
                   host := ["\x7b\x7bbase_url\x7d\x7d"],
                   path := ["api", "components"] },
          description := "Obtiene la lista de todos los componentes disponibles" },
        response := [] },
      { name := "Get Components by Type",
        request := {
          method := "GET",
          header := [],
          url := { raw := "\x7b\x7bbase_url\x7d\x7d/api/components?type=button",
                   host := ["\x7b\x7bbase_url\x7d\x7d"],
                   path := ["api", "components"],
                   query := some [
                     { key := "type",
                       value := "button",
                       description := "Filtrar por tipo: button, card, modal, navigation, form, layout, animation, other" }] },
          description := "Filtra componentes por tipo específico" },
        response := [] },
      { name := "Get Components by Type (Path)",
        request := {
          method := "GET",
          header := [],
          url := { raw := "\x7b\x7bbase_url\x7d\x7d/api/components/type/button",
                   host := ["\x7b\x7bbase_url\x7d\x7d"],
                   path := ["api", "components", "type", "button"] },
          description := "Obtiene componentes de un tipo específico usando parámetro de ruta" },
        response := [] },
      { name := "Create Component",
        request := {
          auth := some { type := "noauth" },
          method := "POST",
          header := [{ key := "Content-Type", value := "application/json" },
                     { key := "token", value := "\x7b\x7bauth_token\x7d\x7d" }],
          body := some { mode := "raw",
                         raw := pyDumps (Json.jobj [
              ("id", Json.jstr "custom-button-1"),
              ("name", Json.jstr "Animated Button"),
              ("type", Json.jstr "button"),
              ("jsxCode", Json.jstr "const AnimatedButton = (\x7b children, onClick \x7d) => \x7b\n  return (\n    <button\n      className=\"animated-btn\"\n      onClick=\x7bonClick\x7d\n    >\n      \x7bchildren\x7d\n    </button>\n  );\n\x7d;\n\nexport default AnimatedButton;"),
              ("animationCode", Json.jstr ".animated-btn \x7b\n  background: linear-gradient(45deg, #667eea, #764ba2);\n  border: none;\n  padding: 12px 24px;\n  border-radius: 8px;\n  color: white;\n  cursor: pointer;\n  transition: all 0.3s ease;\n\x7d\n\n.animated-btn:hover \x7b\n  transform: translateY(-2px);\n  box-shadow: 0 4px 20px rgba(0,0,0,0.3);\n\x7d")]) },
          url := { raw := "\x7b\x7bbase_url\x7d\x7d/api/components",
                   host := ["\x7b\x7bbase_url\x7d\x7d"],
                   path := ["api", "components"] },
          description := "Crea un nuevo componente (requiere autenticación)" },
        response := [] },
      { name := "Get Specific Component",
        request := {
          auth := some { type := "noauth" },
          method := "GET",
          header := [{ key := "token", value := "\x7b\x7bauth_token\x7d\x7d" }],
          url := { raw := "\x7b\x7bbase_url\x7d\x7d/api/components/custom-button-1",
                   host := ["\x7b\x7bbase_url\x7d\x7d"],
                   path := ["api", "components", "custom-button-1"] },
          description := "Obtiene detalles completos de un componente específico (requiere autenticación y posible pago)" },
        response := [] },
      { name := "Get User Access Info",
        request := {
          auth := some { type := "noauth" },
          method := "GET",
          header := [{ key := "token", value := "\x7b\x7bauth_token\x7d\x7d" }],
          url := { raw := "\x7b\x7bbase_url\x7d\x7d/api/components/user/access-info",
                   host := ["\x7b\x7bbase_url\x7d\x7d"],
                   path := ["api", "components", "user", "access-info"] },
          description := "Obtiene información sobre el acceso del usuario a componentes" },
        response := [] }
    ] }

/-- Embedding of `create_payments_folder`. -/
def create_payments_folder : Folder :=
  { name := "💳 Payments",
    item := [
      { name := "Get Pricing Info",
        request := {
          method := "GET",
          header := [],
          url := { raw := "\x7b\x7bbase_url\x7d\x7d/api/payment/pricing-info",
                   host := ["\x7b\x7bbase_url\x7d\x7d"],
                   path := ["api", "payment", "pricing-info"] },
          description := "Obtiene información de precios y beneficios premium" },
        response := [] },
      { name := "Create Component Donation Order",
        request := {
          auth := some { type := "noauth" },
          method := "POST",
          header := [{ key := "Content-Type", value := "application/json" },
                     { key := "token", value := "\x7b\x7bauth_token\x7d\x7d" }],
          body := some { mode := "raw",
                         raw := pyDumps (Json.jobj [
              ("amount", Json.jdec 255 1),
              ("componentId", Json.jstr "custom-button-1"),
              ("isPremiumUpgrade", Json.jbool false)]) },
          url := { raw := "\x7b\x7bbase_url\x7d\x7d/api/payment/create-order",
                   host := ["\x7b\x7bbase_url\x7d\x7d"],
                   path := ["api", "payment", "create-order"] },
          description := "Crea una orden de PayPal para donar por un componente específico" },
        response := [] },
      { name := "Create Premium Upgrade Order",
        request := {
          auth := some { type := "noauth" },
          method := "POST",
          header := [{ key := "Content-Type", value := "application/json" },
                     { key := "token", value := "\x7b\x7bauth_token\x7d\x7d" }],
          body := some { mode := "raw",
                         raw := pyDumps (Json.jobj [
              ("amount", Json.jdec 50 0),
              ("isPremiumUpgrade", Json.jbool true)]) },
          url := { raw := "\x7b\x7bbase_url\x7d\x7d/api/payment/create-order",
                   host := ["\x7b\x7bbase_url\x7d\x7d"],
                   path := ["api", "payment", "create-order"] },
          description := "Crea una orden de PayPal para upgrade a premium" },
        response := [] },
      { name := "Capture Order (Webhook)",
        request := {
          method := "GET",
          header := [],
          url := { raw := "\x7b\x7bbase_url\x7d\x7d/api/payment/capture-order?token=PAYPAL_TOKEN&componentId=custom-button-1&userId=USER_ID&amount=25.50&isPremiumUpgrade=false",
                   host := ["\x7b\x7bbase_url\x7d\x7d"],
                   path := ["api", "payment", "capture-order"],
                   query := some [
                     { key := "token",
                       value := "PAYPAL_TOKEN",
                       description := "Token de PayPal después de la aprobación" },
                     { key := "componentId",
                       value := "custom-button-1",
                       description := "ID del componente (opcional para premium)" },
                     { key := "userId",
                       value := "USER_ID",
                       description := "ID del usuario" },
                     { key := "amount",
                       value := "25.50",
                       description := "Cantidad en MXN" },
                     { key := "isPremiumUpgrade",
                       value := "false",
                       description := "Si es upgrade premium" }] },
          description := "Endpoint llamado por PayPal después de la aprobación del pago" },
        response := [] },
      { name := "Cancel Order (Webhook)",
        request := {
          method := "GET",
          header := [],
          url := { raw := "\x7b\x7bbase_url\x7d\x7d/api/payment/cancel-order",
                   host := ["\x7b\x7bbase_url\x7d\x7d"],
                   path := ["api", "payment", "cancel-order"] },
          description := "Endpoint llamado cuando el usuario cancela el pago en PayPal" },
        response := [] }
    ] }

/-- Embedding of `create_utility_folder`. -/
def create_utility_folder : Folder :=
  { name := "🛠️ Utilities & Testing",
    item := [
      { name := "API Documentation",
        request := {
          method := "GET",
          header := [],
          url := { raw := "\x7b\x7bbase_url\x7d\x7d/api-docs",
                   host := ["\x7b\x7bbase_url\x7d\x7d"],
                   path := ["api-docs"] },
          description := "Accede a la documentación Swagger de la API" },
        response := [] },
      { name := "Health Check",
        request := {
          method := "GET",
          header := [],
          url := { raw := "\x7b\x7bbase_url\x7d\x7d/",
                   host := ["\x7b\x7bbase_url\x7d\x7d"],
                   path := [""] },
          description := "Verifica que el servidor esté funcionando" },
        response := [] },
      { name := "Test Flow - Complete User Journey",
        request := {
          method := "GET",
          header := [],
          url := { raw := "\x7b\x7bbase_url\x7d\x7d/api/components",
                   host := ["\x7b\x7bbase_url\x7d\x7d"],
                   path := ["api", "components"] },
          description := "Endpoint base para testing de flujo completo" },
        response := [],
        event := [
          { listen := "prerequest",
            script := { exec := [
              "// Test Flow Script",
              "console.log(\x27=== COMPLETE USER JOURNEY TEST ===\x27);",
              "console.log(\x271. Register user\x27);",
              "console.log(\x272. Login user\x27);",
              "console.log(\x273. Get components\x27);",
              "console.log(\x274. Try to access premium component\x27);",
              "console.log(\x275. Create payment order\x27);",
              "console.log(\x276. Check user access after payment\x27);",
              "console.log(\x27=====================================\x27);"] } }] }
    ] }

/-- Embedding of `create_postman_collection`.  The script calls
`generate_uuid()` (a fresh random version-4 UUID) for `_postman_id`; that
nondeterministic value is taken here as the parameter `uid`. -/
def create_postman_collection (uid : String) : Collection :=
  { info := {
      _postman_id := uid,
      name := "Component Store API",
      description := "API completa para el Component Store - Sistema de componentes JSX con donaciones PayPal y acceso premium",
      schema := "https://schema.getpostman.com/json/collection/v2.1.0/collection.json" },
    item := [
      create_auth_folder,
      create_components_folder,
      create_payments_folder,
      create_utility_folder ],
    «variable» := [
      { key := "base_url", value := "http://localhost:3000", type := "string" },
      { key := "auth_token", value := "", type := "string" } ],
    auth := {
      type := "bearer",
      bearer := [
        { key := "token", value := "\x7b\x7bauth_token\x7d\x7d", type := "string" } ] } }

/-- Embedding of `create_test_environments`.  The two `generate_uuid()`
calls become the parameters `uidDev` and `uidProd`. -/
def create_test_environments (uidDev uidProd : String) : Environments :=
  { development := {
      id := uidDev,
      name := "Development Environment",
      values := [
        { key := "base_url", value := "http://localhost:3000", enabled := true },
        { key := "auth_token", value := "", enabled := true },
        { key := "test_email", value := "test@example.com", enabled := true },
        { key := "test_password", value := "testpassword123", enabled := true } ] },
    production := {
      id := uidProd,
      name := "Production Environment",
      values := [
        { key := "base_url", value := "https://your-production-url.com", enabled := true },
        { key := "auth_token", value := "", enabled := true } ] } }

/-! Output artifacts and the write loop of `main`. -/

/-- Filename of the collection artifact for a run timestamp. -/
def collection_filename (timestamp : String) : String :=
  "component-store-api_" ++ timestamp ++ ".postman_collection.json"

/-- Filename of one environment artifact. -/
def env_filename (envName timestamp : String) : String :=
  "component-store-" ++ envName ++ "_" ++ timestamp ++ ".postman_environment.json"

/-- Filename of the README artifact. -/
def readme_filename (timestamp : String) : String :=
  "POSTMAN_README_" ++ timestamp ++ ".md"

/-- The artifact filenames `main` writes, in write order: collection, then
the environments in dict order (development, production), then README. -/
def main_filenames (timestamp : String) : List String :=
  [ collection_filename timestamp,
    env_filename "development" timestamp,
    env_filename "production" timestamp,
    readme_filename timestamp ]

/-- Sequential write loop of `main` under a failure oracle `fails` on
filenames.  Each `open`/`json.dump` either succeeds or raises; an
exception is uncaught, so the loop stops at the first failing write and
the interpreter exits with code 1; with no failure every file is written
and the process exits 0.  Returns the files on disk and the exit code. -/
def runWrites (fails : String → Bool) : List String → List String × Nat
  | [] => ([], 0)
  | f :: rest =>
    if fails f then ([], 1)
    else
      match runWrites fails rest with
      | (written, code) => (f :: written, code)

/-- The whole emission step of `main` for one run. -/
def runMain (fails : String → Bool) (timestamp : String) : List String × Nat :=
  runWrites fails (main_filenames timestamp)

/-! JSON views of the documents, with the exact key order and optional-key
omission of the dicts the script builds: composing with `pyDumps` gives
the bytes `json.dump(..., indent=2, ensure_ascii=False)` writes. -/

/-- JSON view of a query parameter. -/
def queryParamJson (q : QueryParam) : Json :=
  Json.jobj [("key", Json.jstr q.key), ("value", Json.jstr q.value),
             ("description", Json.jstr q.description)]

/-- JSON view of a `url` dict; the `query` key is present only when
declared. -/
def urlJson (u : UrlSpec) : Json :=
  Json.jobj ([("raw", Json.jstr u.raw),
              ("host", Json.jarr (u.host.map Json.jstr)),
              ("path", Json.jarr (u.path.map Json.jstr))] ++
    (match u.query with
     | none => []
     | some qs => [("query", Json.jarr (qs.map queryParamJson))]))

/-- JSON view of a header entry. -/
def headerJson (h : Header) : Json :=
  Json.jobj [("key", Json.jstr h.key), ("value", Json.jstr h.value)]

/-- JSON view of a `request` dict; `auth` and `body` keys are present only
when declared. -/
def requestJson (r : RequestSpec) : Json :=
  Json.jobj (
    (match r.auth with
     | none => []
     | some a => [("auth", Json.jobj [("type", Json.jstr a.type)])]) ++
    [("method", Json.jstr r.method),
     ("header", Json.jarr (r.header.map headerJson))] ++
    (match r.body with
     | none => []
     | some b => [("body", Json.jobj [("mode", Json.jstr b.mode),
                                      ("raw", Json.jstr b.raw)])]) ++
    [("url", urlJson r.url), ("description", Json.jstr r.description)])

/-- JSON view of an event entry. -/
def eventJson (e : EventSpec) : Json :=
  Json.jobj [("listen", Json.jstr e.listen),
             ("script", Json.jobj [("exec", Json.jarr (e.script.exec.map Json.jstr))])]

/-- JSON view of an item; the `event` key is present only when the item
declares events. -/
def itemJson (it : Item) : Json :=
  Json.jobj ([("name", Json.jstr it.name),
              ("request", requestJson it.request),
              ("response", Json.jarr it.response)] ++
    (match it.event with
     | [] => []
     | evs => [("event", Json.jarr (evs.map eventJson))]))

/-- JSON view of a folder. -/
def folderJson (f : Folder) : Json :=
  Json.jobj [("name", Json.jstr f.name),
             ("item", Json.jarr (f.item.map itemJson))]

/-- JSON view of a collection or bearer variable entry. -/
def variableJson (v : Variable) : Json :=
  Json.jobj [("key", Json.jstr v.key), ("value", Json.jstr v.value),
             ("type", Json.jstr v.type)]

/-- JSON view of the whole collection document. -/
def collectionJson (c : Collection) : Json :=
  Json.jobj [
    ("info", Json.jobj [
      ("_postman_id", Json.jstr c.info._postman_id),
      ("name", Json.jstr c.info.name),
      ("description", Json.jstr c.info.description),
      ("schema", Json.jstr c.info.schema)]),
    ("item", Json.jarr (c.item.map folderJson)),
    ("variable", Json.jarr (c.«variable».map variableJson)),
    ("auth", Json.jobj [
      ("type", Json.jstr c.auth.type),
      ("bearer", Json.jarr (c.auth.bearer.map variableJson))])]

/-- Bytes of the serialized `item` part of a collection. -/
def serialize_items (c : Collection) : String :=
  pyDumps (Json.jarr (c.item.map folderJson))

/-- Bytes of the serialized `variable` part of a collection. -/
def serialize_variables (c : Collection) : String :=
  pyDumps (Json.jarr (c.«variable».map variableJson))

/-! Derived views the properties quantify over. -/

/-- Every request descriptor the generator emits, in collection order:
the items of the four folders. -/
def all_items : List Item :=
  create_auth_folder.item ++ create_components_folder.item ++
    create_payments_folder.item ++ create_utility_folder.item

/-- Reconstruction of a `raw` URL from its structured parts: the base-URL
placeholder, `/`-joined path segments, and, when query parameters are
declared, `?` plus the `&`-joined `key=value` pairs in declared order. -/
def reconstructed_raw (u : UrlSpec) : String :=
  let base := "\x7b\x7bbase_url\x7d\x7d" ++ "/" ++ String.intercalate "/" u.path
  match u.query with
  | none => base
  | some qs =>
    base ++ "?" ++ String.intercalate "&" (qs.map fun q => q.key ++ "=" ++ q.value)

/-- A statement line that assigns the collection variable `v` via the
Postman scripting API. -/
def writes_variable (v line : String) : Bool :=
  line.toList.tails.any
    (fun t => ("pm.collectionVariables.set(\x27" ++ v ++ "\x27").toList.isPrefixOf t)

/-- Characterization of the write loop: the files on disk afterwards are
the longest prefix of non-failing writes, and the exit code is 0 exactly
when every write succeeded. -/
theorem runWrites_characterization (fails : String → Bool) (l : List String) :
    runWrites fails l
      = (l.takeWhile (fun f => !fails f),
         if l.all (fun f => !fails f) then 0 else 1) := by
  induction l with
  | nil => rfl
  | cons f rest ih =>
    by_cases h : fails f = true
    · simp [runWrites, h]
    · simp only [Bool.not_eq_true] at h
      simp [runWrites, h, ih]

/-- C1: for every request descriptor the four folder builders produce, the
`raw` field of its url equals, byte for byte, the base-URL placeholder,
then `/` plus the `/`-joined path segments, then, when query parameters
are declared, `?` plus the `&`-joined `key=value` pairs in declared
order. -/
theorem c1_raw_url_reconstruction :
    all_items.all
      (fun it => it.request.url.raw == reconstructed_raw it.request.url) = true := by
  decide

/-- C2: the collection's `item` sequence is exactly the four folders, in
the fixed order Authentication, Components, Payments, Utilities, and
their request descriptors partition the full descriptor set: the
concatenation of the folders is the full set and has no duplicates (so no
descriptor appears in two folders and none is omitted). -/
theorem c2_folder_partition (uid : String) :
    (create_postman_collection uid).item
        = [create_auth_folder, create_components_folder,
           create_payments_folder, create_utility_folder]
      ∧ (create_postman_collection uid).item.map Folder.name
        = ["🔐 Authentication", "🧩 Components", "💳 Payments",
           "🛠️ Utilities & Testing"]
      ∧ (create_postman_collection uid).item.flatMap Folder.item = all_items
      ∧ (all_items.map Item.name).Nodup
      ∧ all_items.Nodup := by
  refine ⟨rfl, rfl, rfl, by decide, ?_⟩
  exact List.Nodup.of_map Item.name (by decide)

/-- C4: the production environment's variable keys are a strict subset of
the development environment's; production never carries `test_email` or
`test_password`; development carries exactly base_url, auth_token,
test_email, test_password and production exactly base_url, auth_token, so
neither environment is empty. -/
theorem c4_environment_variables (uidDev uidProd : String) :
    ((create_test_environments uidDev uidProd).development.values.map EnvValue.key
        = ["base_url", "auth_token", "test_email", "test_password"])
      ∧ ((create_test_environments uidDev uidProd).production.values.map EnvValue.key
        = ["base_url", "auth_token"])
      ∧ ((create_test_environments uidDev uidProd).production.values.map EnvValue.key
        ⊆ (create_test_environments uidDev uidProd).development.values.map EnvValue.key)
      ∧ ¬((create_test_environments uidDev uidProd).development.values.map EnvValue.key
        ⊆ (create_test_environments uidDev uidProd).production.values.map EnvValue.key)
      ∧ "test_email" ∉ (create_test_environments uidDev uidProd).production.values.map EnvValue.key
      ∧ "test_password" ∉ (create_test_environments uidDev uidProd).production.values.map EnvValue.key
      ∧ (create_test_environments uidDev uidProd).development.values ≠ []
      ∧ (create_test_environments uidDev uidProd).production.values ≠ [] := by
  have hd : (create_test_environments uidDev uidProd).development.values.map EnvValue.key
      = ["base_url", "auth_token", "test_email", "test_password"] := rfl
  have hp : (create_test_environments uidDev uidProd).production.values.map EnvValue.key
      = ["base_url", "auth_token"] := rfl
  refine ⟨hd, hp, ?_, ?_, ?_, ?_, ?_, ?_⟩
  · rw [hp, hd]; decide
  · rw [hp, hd]; decide
  · rw [hp]; decide
  · rw [hp]; decide
  · intro h
    have := congrArg (List.map EnvValue.key) h
    rw [hd] at this
    exact absurd this (by decide)
  · intro h
    have := congrArg (List.map EnvValue.key) h
    rw [hp] at this
    exact absurd this (by decide)

/-- C5: the collection-level auth block declares scheme bearer with a
token parameter referencing `auth_token` via its placeholder, and at
least one request of the Authentication folder has a post-response
(`listen: "test"`) event script with a statement that assigns the
collection variable of exactly that name. -/
theorem c5_auth_token_wiring (uid : String) :
    (create_postman_collection uid).auth.type = "bearer"
      ∧ (create_postman_collection uid).auth.bearer.any
          (fun p => p.key == "token" && p.value == "\x7b\x7bauth_token\x7d\x7d") = true
      ∧ create_auth_folder.item.any
          (fun it => it.event.any (fun ev => ev.listen == "test" &&
            ev.script.exec.any (fun line => writes_variable "auth_token" line)))
          = true := by
  have hb : (create_postman_collection uid).auth.bearer
      = [{ key := "token", value := "\x7b\x7bauth_token\x7d\x7d", type := "string" }] := rfl
  refine ⟨rfl, ?_, by decide⟩
  rw [hb]
  decide

/-- C7: every descriptor needing no body (exactly the GET requests here)
omits the `body` field entirely, no descriptor carries a
present-but-empty body, and a descriptor declares per-request auth only
when it carries the special token header — all other descriptors omit the
auth field and so inherit the collection-level config. -/
theorem c7_body_and_auth_omission :
    all_items.all (fun it =>
      (it.request.body.isNone == (it.request.method == "GET"))
      && (match it.request.body with
          | none => true
          | some b => !(b.raw == "") && !(b.raw == "\x7b\x7d"))
      && (it.request.auth.isNone
          == !(it.request.header.any (fun h => h.key == "token")))) = true := by
  decide

/-- C10: every descriptor with a per-request auth override declares it as
type noauth and carries a `token: \x7b\x7bauth_token\x7d\x7d` header, and
no descriptor without an override carries a token header. -/
theorem c10_noauth_token_header :
    all_items.all (fun it =>
      match it.request.auth with
      | none => !(it.request.header.any (fun h => h.key == "token"))
      | some a => a.type == "noauth" && it.request.header.any
          (fun h => h.key == "token" && h.value == "\x7b\x7bauth_token\x7d\x7d"))
      = true := by
  decide

/-- C3: two runs differ only in the generated identifier and the
timestamped filename: the `item` and `variable` content (and the rest of
`info` and the auth block) are identical across runs, the serialized
bytes of the `item` and `variable` parts are byte-identical, and the
collection filename depends injectively on the timestamp alone. -/
theorem c3_run_determinism (u1 u2 ts1 ts2 : String) :
    (create_postman_collection u1).item = (create_postman_collection u2).item
      ∧ (create_postman_collection u1).«variable»
        = (create_postman_collection u2).«variable»
      ∧ (create_postman_collection u1).auth = (create_postman_collection u2).auth
      ∧ (create_postman_collection u1).info.name
        = (create_postman_collection u2).info.name
      ∧ (create_postman_collection u1).info.description
        = (create_postman_collection u2).info.description
      ∧ (create_postman_collection u1).info.schema
        = (create_postman_collection u2).info.schema
      ∧ (create_postman_collection u1).info._postman_id = u1
      ∧ serialize_items (create_postman_collection u1)
        = serialize_items (create_postman_collection u2)
      ∧ serialize_variables (create_postman_collection u1)
        = serialize_variables (create_postman_collection u2)
      ∧ (collection_filename ts1 = collection_filename ts2 ↔ ts1 = ts2) := by
  refine ⟨rfl, rfl, rfl, rfl, rfl, rfl, rfl, rfl, rfl, ?_, ?_⟩
  · intro h
    have h2 := congrArg String.data h
    simp only [collection_filename, String.data_append] at h2
    exact String.ext (List.append_cancel_left (List.append_cancel_right h2))
  · intro h
    rw [h]

set_option maxRecDepth 100000 in
/-- C6: the literal donation-order input object (`amount` 25.50,
`componentId` "custom-button-1", `isPremiumUpgrade` false), serialized
into the Create Component Donation Order descriptor's raw body payload,
parses back to an equal structure: serialize-then-parse is the identity
on this input. -/
theorem c6_donation_body_roundtrip :
    ∃ it ∈ create_payments_folder.item,
      it.name = "Create Component Donation Order"
        ∧ it.request.body.isSome = true
        ∧ jparse ((it.request.body.getD { mode := "", raw := "" }).raw)
          = some (Json.jobj [
              ("amount", Json.jdec 255 1),
              ("componentId", Json.jstr "custom-button-1"),
              ("isPremiumUpgrade", Json.jbool false)]) := by
  refine ⟨_, List.mem_cons_of_mem _ (List.mem_cons_self _ _), rfl, rfl, ?_⟩
  rfl

set_option maxRecDepth 1000000 in
/-- C9: every request descriptor that carries a body has body mode raw
with a payload that parses as well-formed JSON, and its headers include
`Content-Type: application/json`. -/
theorem c9_body_wellformed_json :
    all_items.all (fun it =>
      match it.request.body with
      | none => true
      | some b => b.mode == "raw" && (jparse b.raw).isSome
          && it.request.header.any
            (fun h => h.key == "Content-Type" && h.value == "application/json"))
      = true := by
  decide

/-- C8, counterexample: when the first artifact (the collection file)
fails to write, the queued writes for the other artifacts are aborted —
the development environment file is queued and would not itself fail, yet
it is not written — refuting the claim that a failure does not abort
queued writes. -/
theorem c8_counterexample :
    (runMain (fun f => f == collection_filename "20250101_000000")
        "20250101_000000" = ([], 1))
      ∧ ((fun f => f == collection_filename "20250101_000000")
          (env_filename "development" "20250101_000000") = false)
      ∧ env_filename "development" "20250101_000000"
          ∈ main_filenames "20250101_000000"
      ∧ env_filename "development" "20250101_000000"
          ∉ (runMain (fun f => f == collection_filename "20250101_000000")
              "20250101_000000").1 := by
  refine ⟨rfl, by decide, by decide, by decide⟩

/-- C8, amended: on success (no write fails) the process writes all four
artifacts and exits 0; when a write fails the process exits with the
non-zero code 1, the writes completed before the failure are preserved on
disk, but the failing artifact and every write queued after it are
aborted (the uncaught exception ends the run; the only failure report is
the interpreter's traceback). -/
theorem c8_amended_behavior (fails : String → Bool) (ts : String) :
    runMain fails ts
      = ((main_filenames ts).takeWhile (fun f => !fails f),
         if (main_filenames ts).all (fun f => !fails f) then 0 else 1) :=
  runWrites_characterization fails (main_filenames ts)

end MotionKit
